import Mathlib

/-!
Verification of the exam attempt engine and exam lifecycle of the
AcademicIntelligence backend.  The definitions below are a shallow
embedding of `src/services/attemptService.js`, `src/services/examService.js`
and `src/utils/helpers.js`: numbers (MySQL DOUBLE columns) are modelled as
rationals, JSON answer values as an inductive type, thrown `ApiError`s as
`Except.error`, and the database rows touched by each operation as explicit
record states threaded through the functions.
-/

/-- JSON values stored in the `selectedAnswer` / `correctAnswer` columns:
an opaque union of null, string, number and array, as used by the service. -/
inductive AnswerValue where
  | null
  | str (s : String)
  | num (n : Rat)
  | arr (elems : List AnswerValue)

/-- Whether a stored JSON value is null (the `=== null` tests of the service;
undefined never reaches the stored rows). -/
def AnswerValue.isNull : AnswerValue → Bool
  | .null => true
  | _ => false

/-- JavaScript string conversion `v.toString()` for the modelled values.
Array conversion joins element strings with commas, with null elements
rendered as the empty string (JS `Array.prototype.toString` semantics).
Decimal rendering of non-integer doubles is approximated by the rational
literal; no theorem below depends on that rendering. -/
def jsToStr : AnswerValue → String
  | .null => "null"
  | .str s => s
  | .num n => if n.den = 1 then toString n.num else toString n
  | .arr xs => String.intercalate "," (jsArrElemStrs xs)
where
  /-- Element strings of a JS array conversion. -/
  jsArrElemStrs : List AnswerValue → List String
  | [] => []
  | .null :: rest => "" :: jsArrElemStrs rest
  | v :: rest => jsToStr v :: jsArrElemStrs rest

/-- JavaScript truthiness of the modelled values. -/
def jsTruthy : AnswerValue → Bool
  | .null => false
  | .str s => s ≠ ""
  | .num n => n ≠ 0
  | .arr _ => true

/-- JavaScript strict equality `===` on the modelled values.  Arrays compare
by reference in JS; the rows compared by the service always come from
distinct objects, so array comparison is `false`. -/
def jsStrictEq : AnswerValue → AnswerValue → Bool
  | .null, .null => true
  | .str a, .str b => a = b
  | .num a, .num b => a = b
  | _, _ => false

/-- The pattern `v?.toString() || v` used by `checkAnswer`: the string
conversion when it is available and truthy, the value itself otherwise. -/
def jsToStringOrSelf (v : AnswerValue) : AnswerValue :=
  match v with
  | .null => .null
  | v => if jsToStr v = "" then v else .str (jsToStr v)

/-- The pattern `String(v || '').toLowerCase().trim()` used by the scalar
fallback comparisons of `checkAnswer`. -/
def jsStringCoerceLC (v : AnswerValue) : String :=
  (if jsTruthy v then jsToStr v else "").toLower.trim

/-- JavaScript `Number(v)` restricted to the values graded by the claims:
`none` stands for NaN.  Numeric parsing of strings is not modelled; the
theorems below only grade numeric values. -/
def jsToNumber : AnswerValue → Option Rat
  | .null => some 0
  | .num n => some n
  | .str _ => none
  | .arr _ => none

/-- A row of the `question_options` table. -/
structure QuestionOption where
  id : String
  text : String
  isCorrect : Bool

/-- A row of the `questions` table (fields used by grading). -/
structure Question where
  id : String
  questionType : String
  options : List QuestionOption
  correctAnswer : AnswerValue
  marks : Rat
  negativeMarks : Rat

/-- `question.options.filter(o => o.isCorrect).map(o => o.id?.toString() || o.id)`:
the option ids flagged correct (ids are non-empty strings, so the string
conversion is the identity). -/
def correctOptionIds (question : Question) : List String :=
  (question.options.filter (fun opt => opt.isCorrect)).map (fun opt => opt.id)

/-- One step of the multi-select membership test: the selected element is
stringified when possible (`a?.toString ? a.toString() : a`) and looked up
among the correct option ids; a null element never matches. -/
def selectedIdMatches (ids : List String) (a : AnswerValue) : Bool :=
  match a with
  | .null => false
  | v => ids.contains (jsToStr v)

/-- `AttemptService.checkAnswer` (attemptService.js lines 495-544): the
type-dispatched correctness check used at grading time. -/
def checkAnswer (question : Question) (selectedAnswer : AnswerValue) : Bool :=
  if question.questionType = "mcq" ∨ question.questionType = "multiple_choice"
      ∨ question.questionType = "true_false" then
    match (if question.options.length > 0
           then question.options.find? (fun opt => opt.isCorrect) else none) with
    | some correctOption =>
      let selectedId := jsToStringOrSelf selectedAnswer
      let correctId := jsToStringOrSelf (.str correctOption.id)
      if jsTruthy selectedId && jsTruthy correctId then
        jsStrictEq selectedId correctId
      else
        jsStrictEq selectedAnswer (.str correctOption.text)
    | none =>
      jsStringCoerceLC selectedAnswer = jsStringCoerceLC question.correctAnswer
  else if question.questionType = "multiple" ∨ question.questionType = "multiple_select" then
    if question.options.length > 0 then
      match selectedAnswer with
      | .arr selected =>
        decide (selected.length = (correctOptionIds question).length) &&
          selected.all (selectedIdMatches (correctOptionIds question))
      | _ => false
    else
      match selectedAnswer, question.correctAnswer with
      | .arr sel, .arr corr =>
        decide (sel.length = corr.length) && sel.all (fun a => corr.any (fun c => jsStrictEq a c))
      | _, _ => false
  else if question.questionType = "numerical" then
    match jsToNumber selectedAnswer, jsToNumber question.correctAnswer with
    | some a, some b => decide (|a - b| < (1 : Rat) / 1000)
    | _, _ => false
  else if question.questionType = "short_answer" then
    match selectedAnswer, question.correctAnswer with
    | .str a, .str b => a.toLower.trim = b.toLower.trim
    | _, _ => false
  else
    false

/-- `AttemptService.calculateGrade` (attemptService.js lines 549-556). -/
def calculateGrade (percentage : Rat) : String :=
  if percentage ≥ 90 then "A+"
  else if percentage ≥ 80 then "A"
  else if percentage ≥ 70 then "B"
  else if percentage ≥ 60 then "C"
  else if percentage ≥ 50 then "D"
  else "F"

/-- JavaScript `Math.round`: rounds half toward positive infinity. -/
def jsMathRound (x : Rat) : Int :=
  Int.floor (x + 1 / 2)

/-- `calculatePercentage` from utils/helpers.js: guarded against a zero
total, otherwise `Math.round((value / total) * 10000) / 100`. -/
def calculatePercentage (value total : Rat) : Rat :=
  if total = 0 then 0
  else ((jsMathRound (value / total * 10000) : Rat)) / 100

/-- Thrown `ApiError`s (utils/helpers.js): a status code and a message. -/
structure ApiError where
  statusCode : Nat
  message : String
deriving DecidableEq

/-- `ApiError.badRequest` constructor (status 400). -/
def ApiError.badRequest (message : String) : ApiError := ⟨400, message⟩

/-- `ApiError.notFound` constructor (status 404). -/
def ApiError.notFound (message : String) : ApiError := ⟨404, message⟩

/-- `ApiError.forbidden` constructor (status 403). -/
def ApiError.forbidden (message : String) : ApiError := ⟨403, message⟩

/-- The exam configuration fields read by the attempt engine
(`exams` table; unused presentation fields omitted).  Times are epoch
milliseconds. -/
structure Exam where
  id : String
  status : String
  durationMinutes : Int
  totalMarks : Rat
  passingPercentage : Rat
  negativeMarking : Bool
  negativeMarkValue : Rat
  shuffleQuestions : Bool

/-- A row of the `exam_attempts` table (fields touched by the engine). -/
structure Attempt where
  id : String
  examId : String
  studentId : String
  status : String
  startedAt : Int
  submittedAt : Option Int
  totalScore : Rat
  percentage : Option Rat
  correctAnswers : Nat
  wrongAnswers : Nat
  skipped : Nat
  timeTaken : Int
  grade : Option String
  passed : Option Bool

/-- A row of the `student_answers` table. -/
structure StudentAnswer where
  questionId : String
  selectedAnswer : AnswerValue
  isAnswered : Bool
  isCorrect : Option Bool
  marksAwarded : Rat
  timeSpent : Int
  answeredAt : Option Int

/-- The database rows consulted and mutated by one attempt: the exam, its
question set (`include: questions`), the attempt row and its answer rows. -/
structure AttemptDb where
  exam : Exam
  questions : List Question
  attempt : Attempt
  answers : List StudentAnswer

/-- The per-attempt running counters accumulated by the grading loop of
`finalizeAttempt`. -/
structure GradeTotals where
  totalScore : Rat
  correctAnswers : Nat
  wrongAnswers : Nat
  skipped : Nat
deriving DecidableEq

/-- Pointwise sum of grading counters. -/
def GradeTotals.add (a b : GradeTotals) : GradeTotals :=
  ⟨a.totalScore + b.totalScore, a.correctAnswers + b.correctAnswers,
   a.wrongAnswers + b.wrongAnswers, a.skipped + b.skipped⟩

/-- `question.marks && question.marks > 0 ? question.marks : 1`:
the marks awarded for a correct answer (default 1). -/
def questionMarksValue (question : Question) : Rat :=
  if question.marks > 0 then question.marks else 1

/-- `question.negativeMarks || exam.negativeMarkValue || 0`: the magnitude
deducted for a wrong answer under negative marking (JS falsy fallback on 0). -/
def negativeMarkFor (exam : Exam) (question : Question) : Rat :=
  if question.negativeMarks = 0 then
    (if exam.negativeMarkValue = 0 then 0 else exam.negativeMarkValue)
  else question.negativeMarks

/-- One iteration of the grading loop of `finalizeAttempt` (attemptService.js
lines 271-303): the counter deltas and the updated answer row.  An answer
whose question is missing is skipped by `continue` (no delta, row untouched). -/
def gradeOne (exam : Exam) (questions : List Question) (a : StudentAnswer) :
    GradeTotals × StudentAnswer :=
  match questions.find? (fun q => q.id = a.questionId) with
  | none => (⟨0, 0, 0, 0⟩, a)
  | some question =>
    if a.isAnswered = false ∨ a.selectedAnswer.isNull then
      (⟨0, 0, 0, 1⟩, { a with isCorrect := some false, marksAwarded := 0 })
    else if checkAnswer question a.selectedAnswer then
      (⟨questionMarksValue question, 1, 0, 0⟩,
       { a with isCorrect := some true, marksAwarded := questionMarksValue question })
    else
      (⟨if exam.negativeMarking then -(negativeMarkFor exam question) else 0, 0, 1, 0⟩,
       { a with isCorrect := some false,
                marksAwarded := if exam.negativeMarking then -(negativeMarkFor exam question) else 0 })

/-- The grading loop of `finalizeAttempt` over all answer rows: total
counters and the updated rows, accumulated left to right. -/
def gradeAnswers (exam : Exam) (questions : List Question) :
    List StudentAnswer → GradeTotals × List StudentAnswer
  | [] => (⟨0, 0, 0, 0⟩, [])
  | a :: rest =>
    let first := gradeOne exam questions a
    let restResult := gradeAnswers exam questions rest
    (first.1.add restResult.1, first.2 :: restResult.2)

/-- `formatDuration` from utils/helpers.js (meaningful for non-negative
second counts, as produced by the engine). -/
def formatDuration (seconds : Int) : String :=
  let hours := seconds.fdiv 3600
  let minutes := (seconds % 3600).fdiv 60
  let secs := seconds % 60
  if hours > 0 then toString hours ++ "h " ++ toString minutes ++ "m"
  else if minutes > 0 then toString minutes ++ "m " ++ toString secs ++ "s"
  else toString secs ++ "s"

/-- The object returned by `finalizeAttempt` (attemptService.js lines
337-349). -/
structure FinalizeResult where
  attemptId : String
  status : String
  totalScore : Rat
  maxScore : Rat
  percentage : Rat
  correctAnswers : Nat
  wrongAnswers : Nat
  skipped : Nat
  timeTaken : String
  grade : String
  passed : Bool
deriving DecidableEq

/-- `AttemptService.finalizeAttempt` (attemptService.js lines 252-350):
guard on a still-active status, grade every answer row, store the floored
total and derived fields on the attempt, and return the graded result.
`now` is the clock reading (epoch ms); a thrown error leaves the rows
untouched. -/
def finalizeAttempt (now : Int) (db : AttemptDb) (submitType : String) :
    Except ApiError FinalizeResult × AttemptDb :=
  if db.attempt.status = "started" ∨ db.attempt.status = "in_progress" then
    let graded := gradeAnswers db.exam db.questions db.answers
    let totalScore := graded.1.totalScore
    let percentage := calculatePercentage totalScore db.exam.totalMarks
    let passed := decide (percentage ≥ db.exam.passingPercentage)
    let grade := calculateGrade percentage
    let timeTaken := (now - db.attempt.startedAt).fdiv 1000
    let status := if submitType = "auto_submitted" then "auto_submitted" else "submitted"
    let attempt := { db.attempt with
      status := status, submittedAt := some now,
      totalScore := max 0 totalScore, percentage := some percentage,
      correctAnswers := graded.1.correctAnswers, wrongAnswers := graded.1.wrongAnswers,
      skipped := graded.1.skipped, timeTaken := timeTaken,
      grade := some grade, passed := some passed }
    (Except.ok
      { attemptId := db.attempt.id, status := status,
        totalScore := max 0 totalScore, maxScore := db.exam.totalMarks,
        percentage := percentage,
        correctAnswers := graded.1.correctAnswers, wrongAnswers := graded.1.wrongAnswers,
        skipped := graded.1.skipped, timeTaken := formatDuration timeTaken,
        grade := grade, passed := passed },
     { db with attempt := attempt, answers := graded.2 })
  else
    (Except.error (ApiError.badRequest "Attempt already submitted"), db)

/-- Upsert of a `student_answers` row keyed by (attempt, question). -/
def upsertAnswer (answers : List StudentAnswer) (questionId : String)
    (update : StudentAnswer → StudentAnswer) (created : StudentAnswer) :
    List StudentAnswer :=
  if answers.any (fun a => a.questionId = questionId) then
    answers.map (fun a => if a.questionId = questionId then update a else a)
  else answers ++ [created]

/-- `AttemptService.saveAnswer` (attemptService.js lines 168-225): requires
an active attempt, auto-finalizes and rejects the save when the deadline
(startedAt + durationMinutes) has passed, otherwise upserts the answer row
and moves a `started` attempt to `in_progress`. -/
def saveAnswer (now : Int) (db : AttemptDb) (questionId : String)
    (answer : AnswerValue) (timeSpent : Int) :
    Except ApiError Unit × AttemptDb :=
  if db.attempt.status = "started" ∨ db.attempt.status = "in_progress" then
    let endTime := db.attempt.startedAt + db.exam.durationMinutes * 60000
    if now > endTime then
      let finalized := finalizeAttempt now db "auto_submitted"
      (Except.error (ApiError.badRequest "Time expired. Exam has been auto-submitted."),
       finalized.2)
    else
      let isAnswered := !answer.isNull
      let answers := upsertAnswer db.answers questionId
        (fun a => { a with selectedAnswer := answer, isAnswered := isAnswered,
                           answeredAt := some now, timeSpent := timeSpent })
        { questionId := questionId, selectedAnswer := answer, isAnswered := isAnswered,
          isCorrect := none, marksAwarded := 0, timeSpent := timeSpent,
          answeredAt := some now }
      let attempt := if db.attempt.status = "started"
        then { db.attempt with status := "in_progress" } else db.attempt
      (Except.ok (), { db with answers := answers, attempt := attempt })
  else
    (Except.error (ApiError.notFound "Active attempt not found"), db)

/-- The exam row as read by `examService` (lifecycle and assignment fields;
presentation fields omitted).  The three assignment relations are flattened
to their target id lists. -/
structure ExamRecord where
  id : String
  createdById : String
  institutionId : Option String
  status : String
  totalMarks : Rat
  assignmentMode : String
  examSections : List String
  examDepartments : List String
  examStudents : List String
deriving DecidableEq

/-- A row of the `questions` table as read by the exam question-set edits
(only id and marks are selected). -/
structure QuestionRow where
  id : String
  marks : Rat
deriving DecidableEq

/-- The rows consulted and mutated by the exam-service operations on one
exam: the exam row (`none` once deleted), its `exam_questions` relation and
the question bank. -/
structure ExamServiceDb where
  exam : Option ExamRecord
  examQuestions : List String
  questionBank : List QuestionRow
deriving DecidableEq

/-- The authenticated caller identity `{id, role, institutionId}`. -/
structure UserRec where
  id : String
  role : String
  institutionId : Option String
deriving DecidableEq

/-- The educator institution guard shared by the exam mutations: an
educator is denied when both the exam and the user carry institutions and
they differ. -/
def educatorInstitutionDenied (exam : ExamRecord) (user : UserRec) : Bool :=
  user.role = "educator" &&
    (match exam.institutionId, user.institutionId with
     | some e, some u => decide (e ≠ u)
     | _, _ => false)

/-- `ExamService.updateExam` (examService.js lines 340-370).  The opaque
`updateData` patch is modelled as a record transformer applied on success. -/
def updateExam (db : ExamServiceDb) (user : UserRec)
    (updateData : ExamRecord → ExamRecord) :
    Except ApiError ExamRecord × ExamServiceDb :=
  match db.exam with
  | none => (Except.error (ApiError.notFound "Exam not found"), db)
  | some exam =>
    if educatorInstitutionDenied exam user then
      (Except.error (ApiError.forbidden "You can only update exams in your institution"), db)
    else if exam.status = "active" ∨ exam.status = "completed" then
      (Except.error (ApiError.badRequest "Cannot update an active or completed exam"), db)
    else
      (Except.ok (updateData exam), { db with exam := some (updateData exam) })

/-- `ExamService.deleteExam` (examService.js lines 375-408): deletes the
exam row and its relations in one transaction. -/
def deleteExam (db : ExamServiceDb) (user : UserRec) :
    Except ApiError Bool × ExamServiceDb :=
  match db.exam with
  | none => (Except.error (ApiError.notFound "Exam not found"), db)
  | some exam =>
    if educatorInstitutionDenied exam user then
      (Except.error (ApiError.forbidden "You can only delete exams in your institution"), db)
    else if exam.status = "active" ∨ exam.status = "completed" then
      (Except.error (ApiError.badRequest "Cannot delete an active or completed exam"), db)
    else
      (Except.ok true, { db with exam := none, examQuestions := [] })

/-- The `exam_questions` marks lookup used by the totalMarks recompute:
`rel.question.marks || 1` (JS falsy fallback on 0). -/
def examQuestionMarks (bank : List QuestionRow) (questionId : String) : Rat :=
  match bank.find? (fun q => q.id = questionId) with
  | some q => if q.marks = 0 then 1 else q.marks
  | none => 1

/-- Exam totalMarks recompute after a question-set edit: the sum of the
current question marks. -/
def recomputeTotalMarks (bank : List QuestionRow) (questionIds : List String) : Rat :=
  (questionIds.map (examQuestionMarks bank)).sum

/-- `ExamService.addQuestionsToExam` (examService.js lines 413-457): checks
the ids against the bank, inserts with duplicate skipping, recomputes
totalMarks.  There is no exam-status guard in the source. -/
def addQuestionsToExam (db : ExamServiceDb) (questionIds : List String)
    (user : UserRec) : Except ApiError ExamRecord × ExamServiceDb :=
  match db.exam with
  | none => (Except.error (ApiError.notFound "Exam not found"), db)
  | some exam =>
    if educatorInstitutionDenied exam user then
      (Except.error (ApiError.forbidden "You can only modify exams in your institution"), db)
    else if (db.questionBank.filter (fun q => questionIds.contains q.id)).length
        ≠ questionIds.length then
      (Except.error (ApiError.badRequest "Some questions not found"), db)
    else
      let examQuestions := questionIds.foldl
        (fun acc qid => if acc.contains qid then acc else acc ++ [qid]) db.examQuestions
      let totalMarks := recomputeTotalMarks db.questionBank examQuestions
      let updated := { exam with totalMarks := totalMarks }
      (Except.ok updated,
       { db with exam := some updated, examQuestions := examQuestions })

/-- `ExamService.removeQuestionsFromExam` (examService.js lines 462-497):
deletes the relation rows and recomputes totalMarks.  There is no
exam-status guard in the source. -/
def removeQuestionsFromExam (db : ExamServiceDb) (questionIds : List String)
    (user : UserRec) : Except ApiError ExamRecord × ExamServiceDb :=
  match db.exam with
  | none => (Except.error (ApiError.notFound "Exam not found"), db)
  | some exam =>
    if educatorInstitutionDenied exam user then
      (Except.error (ApiError.forbidden "You can only modify exams in your institution"), db)
    else
      let examQuestions := db.examQuestions.filter (fun qid => ¬ questionIds.contains qid)
      let totalMarks := recomputeTotalMarks db.questionBank examQuestions
      let updated := { exam with totalMarks := totalMarks }
      (Except.ok updated,
       { db with exam := some updated, examQuestions := examQuestions })

/-- `ExamService.publishExam` (examService.js lines 502-534): requires at
least one question, then sets status to `published`.  There is no check of
the current status in the source. -/
def publishExam (db : ExamServiceDb) (user : UserRec) :
    Except ApiError ExamRecord × ExamServiceDb :=
  match db.exam with
  | none => (Except.error (ApiError.notFound "Exam not found"), db)
  | some exam =>
    if educatorInstitutionDenied exam user then
      (Except.error (ApiError.forbidden "You can only publish exams in your institution"), db)
    else if db.examQuestions.length = 0 then
      (Except.error (ApiError.badRequest "Cannot publish exam without questions"), db)
    else
      let updated := { exam with status := "published" }
      (Except.ok updated, { db with exam := some updated })

/-- The student identity fields read by the student branch of
`getExamById`. -/
structure StudentRec where
  sectionId : Option String
  departmentId : Option String
  institutionId : Option String
deriving DecidableEq

/-- The assignment match of `getExamById` (examService.js lines 146-150):
mode `all`, or a section, department or individual match. -/
def examIsAssigned (exam : ExamRecord) (student : StudentRec) (userId : String) : Bool :=
  exam.assignmentMode = "all" ||
    (match student.sectionId with
     | some s => exam.examSections.contains s
     | none => false) ||
    (match student.departmentId with
     | some d => exam.examDepartments.contains d
     | none => false) ||
    exam.examStudents.contains userId

/-- The student branch of `ExamService.getExamById` (examService.js lines
109-177): status visibility, assignment match, institution scope.  The
returned view is modelled by the exam record. -/
def getExamByIdStudent (exam : Option ExamRecord) (student : Option StudentRec)
    (userId : String) : Except ApiError ExamRecord :=
  match exam with
  | none => Except.error (ApiError.notFound "Exam not found")
  | some exam =>
    if ¬ (exam.status = "published" ∨ exam.status = "active" ∨ exam.status = "completed") then
      Except.error (ApiError.notFound
        ("This exam is currently unavailable (" ++ exam.status
          ++ "). Please ask your instructor to publish it."))
    else
      match student with
      | none => Except.error (ApiError.notFound "Student not found")
      | some student =>
        if ¬ examIsAssigned exam student userId then
          Except.error (ApiError.forbidden "This exam is not assigned to you")
        else
          match exam.institutionId, student.institutionId with
          | some e, some s =>
            if e ≠ s then Except.error (ApiError.notFound "Exam not found")
            else Except.ok exam
          | _, _ => Except.ok exam

/-- The question presentation order computed by `startAttempt`
(attemptService.js lines 95-98): when `exam.shuffleQuestions` is set, the
list is reordered in place by `sort(() => Math.random() - 0.5)`, whose
outcome is abstracted by the `shuffleDraw` reordering determined by the
random draws of that call; the order is returned but not persisted. -/
def startAttemptQuestionOrder (exam : Exam) (questions : List Question)
    (shuffleDraw : List Question → List Question) : List Question :=
  if exam.shuffleQuestions then shuffleDraw questions else questions

/-- The question presentation order returned by `resumeAttempt`
(attemptService.js lines 591-611): the stored `exam.questions` relation
order, with no shuffling applied. -/
def resumeAttemptQuestionOrder (questions : List Question) : List Question :=
  questions

/-- Modelled from the spec: the percentage formula of section 4.4, read
sequentially — `totalScore = max(0, totalScore)` first, then
`percentage = round2(totalScore / exam.totalMarks * 100)`, i.e. the
percentage of the floored total. -/
def specFlooredPercentage (rawScore totalMarks : Rat) : Rat :=
  ((jsMathRound (max 0 rawScore / totalMarks * 100 * 100) : Rat)) / 100

/-- Modelled from the spec: multi-select correctness as exact set equality,
order-independent, between the selected values and the option ids flagged
correct (section 4.4), compared after the same stringification the code
applies. -/
def specMultiSelectCorrect (question : Question) (selected : AnswerValue) : Bool :=
  match selected with
  | .arr xs => decide ((xs.map jsToStr).toFinset = (correctOptionIds question).toFinset)
  | _ => false

/-- Helper: for a graded answer whose question is present, the counter
delta of the grading loop equals the marks stored on the row. -/
theorem gradeOne_totalScore_eq_marksAwarded (exam : Exam) (questions : List Question)
    (a : StudentAnswer) (h : (questions.find? (fun q => q.id = a.questionId)).isSome) :
    (gradeOne exam questions a).1.totalScore = (gradeOne exam questions a).2.marksAwarded := by
  obtain ⟨q, hq⟩ := Option.isSome_iff_exists.mp h
  simp only [gradeOne, hq]
  split
  · rfl
  · split <;> rfl

/-- Helper: when every answer row has its question, the accumulated raw
total of the grading loop is the sum of the stored per-answer marks. -/
theorem gradeAnswers_totalScore_eq_sum (exam : Exam) (questions : List Question) :
    ∀ answers : List StudentAnswer,
      (∀ a ∈ answers, (questions.find? (fun q => q.id = a.questionId)).isSome) →
      (gradeAnswers exam questions answers).1.totalScore =
        ((gradeAnswers exam questions answers).2.map StudentAnswer.marksAwarded).sum
  | [], _ => by simp [gradeAnswers]
  | a :: rest, h => by
    have ha := h a (List.mem_cons_self a rest)
    have hrest := gradeAnswers_totalScore_eq_sum exam questions rest
      (fun x hx => h x (List.mem_cons_of_mem a hx))
    simp only [gradeAnswers, GradeTotals.add, List.map_cons, List.sum_cons]
    rw [gradeOne_totalScore_eq_marksAwarded exam questions a ha, hrest]

/-- The concrete scenario of claim C1: totalMarks 10, negative marking on
with value 2, two numerical questions both answered wrong, attempt in
progress since epoch 0. -/
def c1Db : AttemptDb :=
  ⟨⟨"exam1", "active", 30, 10, 40, true, 2, false⟩,
   [⟨"q1", "numerical", [], .num 7, 5, 0⟩, ⟨"q2", "numerical", [], .num 3, 5, 0⟩],
   ⟨"att1", "exam1", "stu1", "in_progress", 0, none, 0, none, 0, 0, 0, 0, none, none⟩,
   [⟨"q1", .num 1, true, none, 0, 0, none⟩, ⟨"q2", .num 1, true, none, 0, 0, none⟩]⟩

/-- Claim C1 (counterexample): in the stated scenario the stored totalScore
is 0 as claimed, but the stored percentage is computed from the raw score
-4 before the floor, giving -40, not the 0 demanded by the claimed formula
round2(max(0, rawScore) / totalMarks * 100). -/
theorem finalize_scenario_percentage_not_floored :
    (finalizeAttempt 1000 c1Db "submitted").1.map FinalizeResult.totalScore = Except.ok 0 ∧
    (finalizeAttempt 1000 c1Db "submitted").1.map FinalizeResult.percentage = Except.ok (-40) ∧
    specFlooredPercentage (-4) 10 = 0 ∧ ((-40 : Rat) ≠ 0) := by
  refine ⟨?_, ?_, ?_, by norm_num⟩ <;>
    simp [finalizeAttempt, gradeAnswers, gradeOne, checkAnswer, c1Db,
      calculatePercentage, jsMathRound, jsToNumber, questionMarksValue, negativeMarkFor,
      calculateGrade, GradeTotals.add, AnswerValue.isNull, List.find?, Except.map,
      specFlooredPercentage] <;>
    norm_num

/-- Claim C1 (amended): for every finalize of a still-active attempt whose
answer rows all have their question, the stored totalScore equals
max(0, sum of stored marksAwarded), while the stored percentage is computed
from the raw, un-floored sum: percentage = round2(rawScore / totalMarks * 100). -/
theorem finalize_totalScore_floored_percentage_unfloored (now : Int) (db : AttemptDb)
    (submitType : String)
    (hstatus : db.attempt.status = "started" ∨ db.attempt.status = "in_progress")
    (hq : ∀ a ∈ db.answers, (db.questions.find? (fun q => q.id = a.questionId)).isSome) :
    (finalizeAttempt now db submitType).1.map FinalizeResult.totalScore =
      Except.ok (max 0
        (((finalizeAttempt now db submitType).2.answers.map StudentAnswer.marksAwarded).sum)) ∧
    (finalizeAttempt now db submitType).1.map FinalizeResult.percentage =
      Except.ok (calculatePercentage
        (((finalizeAttempt now db submitType).2.answers.map StudentAnswer.marksAwarded).sum)
        db.exam.totalMarks) := by
  have hsum := gradeAnswers_totalScore_eq_sum db.exam db.questions db.answers hq
  simp only [finalizeAttempt, if_pos hstatus, Except.map]
  constructor
  · rw [hsum]
  · rw [hsum]

/-- Claim C1 (witness): the amended statement evaluated on the concrete
scenario database. -/
theorem finalize_totalScore_floored_percentage_unfloored_witness :
    (finalizeAttempt 1000 c1Db "submitted").1.map FinalizeResult.totalScore =
      Except.ok (max 0
        (((finalizeAttempt 1000 c1Db "submitted").2.answers.map StudentAnswer.marksAwarded).sum)) ∧
    (finalizeAttempt 1000 c1Db "submitted").1.map FinalizeResult.percentage =
      Except.ok (calculatePercentage
        (((finalizeAttempt 1000 c1Db "submitted").2.answers.map StudentAnswer.marksAwarded).sum)
        c1Db.exam.totalMarks) :=
  finalize_totalScore_floored_percentage_unfloored 1000 c1Db "submitted"
    (Or.inr rfl) (by simp [c1Db, List.find?])

/-- Claim C2 (counterexample): a percentage of 40 falls below the D band,
which starts at 50, so the grade is F, not the claimed D. -/
theorem calculateGrade_40_is_F_not_D :
    calculateGrade 40 = "F" ∧ ("F" : String) ≠ "D" := by
  refine ⟨by norm_num [calculateGrade], by decide⟩

/-- Claim C2 (amended): the concrete grade cases with the D case corrected
to the band list of the code (at least 50 for D): 90 gives A+, 89.99 gives
A, 40 gives F, 39.99 gives F. -/
theorem calculateGrade_concrete_bands :
    calculateGrade 90 = "A+" ∧ calculateGrade (89.99 : Rat) = "A" ∧
    calculateGrade 40 = "F" ∧ calculateGrade (39.99 : Rat) = "F" := by
  refine ⟨?_, ?_, ?_, ?_⟩ <;> norm_num [calculateGrade]

/-- The concrete attempt of claim C3: one 5-mark question answered
correctly on a 10-mark exam, attempt still in status started. -/
def c3Db : AttemptDb :=
  ⟨⟨"exam3", "active", 30, 10, 40, false, 0, false⟩,
   [⟨"q1", "numerical", [], .num 7, 5, 0⟩],
   ⟨"att3", "exam3", "stu3", "started", 0, none, 0, none, 0, 0, 0, 0, none, none⟩,
   [⟨"q1", .num 7, true, none, 0, 0, none⟩]⟩

/-- The result of the first finalize of the claim C3 attempt. -/
def c3FirstResult : FinalizeResult :=
  ⟨"att3", "submitted", 5, 10, 50, 1, 0, 0, "5s", "D", true⟩

/-- Claim C3 (counterexample): the first finalize returns the graded
result, but the second call on the same attempt returns a BadRequest error
rather than the same result, so finalize does not return the same result
both times. -/
theorem finalize_twice_second_call_errors :
    (finalizeAttempt 5000 c3Db "submitted").1 = Except.ok c3FirstResult ∧
    (finalizeAttempt 6000 (finalizeAttempt 5000 c3Db "submitted").2 "submitted").1 =
      Except.error (ApiError.badRequest "Attempt already submitted") ∧
    (Except.error (ApiError.badRequest "Attempt already submitted") :
      Except ApiError FinalizeResult) ≠ Except.ok c3FirstResult := by
  refine ⟨?_, ?_, fun h => Except.noConfusion h⟩ <;>
    simp [finalizeAttempt, gradeAnswers, gradeOne, checkAnswer, c3Db, c3FirstResult,
      calculatePercentage, jsMathRound, jsToNumber, questionMarksValue, negativeMarkFor,
      calculateGrade, GradeTotals.add, AnswerValue.isNull, List.find?,
      formatDuration, ApiError.badRequest] <;>
    norm_num [Int.fdiv] <;> rfl

/-- Claim C3 (amended): finalizing an already finalized attempt is rejected
with BadRequest "Attempt already submitted" and leaves every stored row —
in particular totalScore, percentage and grade — unchanged; the second call
does not re-score but also does not return the first result. -/
theorem finalize_second_call_rejected_unchanged (now now2 : Int) (db : AttemptDb)
    (ty ty2 : String)
    (hstatus : db.attempt.status = "started" ∨ db.attempt.status = "in_progress") :
    (finalizeAttempt now2 (finalizeAttempt now db ty).2 ty2).1 =
      Except.error (ApiError.badRequest "Attempt already submitted") ∧
    (finalizeAttempt now2 (finalizeAttempt now db ty).2 ty2).2 =
      (finalizeAttempt now db ty).2 := by
  have hdone : ¬ ((finalizeAttempt now db ty).2.attempt.status = "started" ∨
      (finalizeAttempt now db ty).2.attempt.status = "in_progress") := by
    have hst : (finalizeAttempt now db ty).2.attempt.status =
        (if ty = "auto_submitted" then "auto_submitted" else "submitted") := by
      simp only [finalizeAttempt, if_pos hstatus]
    rw [hst]
    by_cases hty : ty = "auto_submitted" <;> simp [hty]
  generalize hgen : (finalizeAttempt now db ty).2 = finalState at hdone ⊢
  simp only [finalizeAttempt, if_neg hdone]
  constructor <;> trivial

/-- Claim C3 (witness): the amended statement evaluated on the concrete
claim C3 attempt. -/
theorem finalize_second_call_rejected_unchanged_witness :
    (finalizeAttempt 6000 (finalizeAttempt 5000 c3Db "submitted").2 "submitted").1 =
      Except.error (ApiError.badRequest "Attempt already submitted") ∧
    (finalizeAttempt 6000 (finalizeAttempt 5000 c3Db "submitted").2 "submitted").2 =
      (finalizeAttempt 5000 c3Db "submitted").2 :=
  finalize_second_call_rejected_unchanged 5000 6000 c3Db "submitted" "submitted" (Or.inl rfl)

/-- Claim C4: a save against a still-active attempt whose deadline
startedAt + durationMinutes has passed is rejected with BadRequest
"Time expired. Exam has been auto-submitted." and, as a side effect,
the attempt is finalized with status auto_submitted. -/
theorem saveAnswer_after_expiry_rejected_and_autosubmitted (now : Int) (db : AttemptDb)
    (questionId : String) (answer : AnswerValue) (timeSpent : Int)
    (hstatus : db.attempt.status = "started" ∨ db.attempt.status = "in_progress")
    (hexpired : now > db.attempt.startedAt + db.exam.durationMinutes * 60000) :
    (saveAnswer now db questionId answer timeSpent).1 =
      Except.error (ApiError.badRequest "Time expired. Exam has been auto-submitted.") ∧
    (saveAnswer now db questionId answer timeSpent).2.attempt.status = "auto_submitted" := by
  simp only [saveAnswer, if_pos hstatus, if_pos hexpired, finalizeAttempt]
  simp [if_pos hstatus]

/-- The concrete attempt of the claim C4 witness: started at epoch 0 on a
30-minute exam, one question not yet answered. -/
def c4Db : AttemptDb :=
  ⟨⟨"exam4", "active", 30, 10, 40, false, 0, false⟩,
   [⟨"q1", "numerical", [], .num 7, 5, 0⟩],
   ⟨"att4", "exam4", "stu4", "started", 0, none, 0, none, 0, 0, 0, 0, none, none⟩,
   [⟨"q1", .null, false, none, 0, 0, none⟩]⟩

/-- Claim C4 (witness): the expiry rejection evaluated on a concrete
attempt started at epoch 0 on a 30-minute exam, saved at epoch 2000000 ms
(beyond the 1800000 ms deadline). -/
theorem saveAnswer_after_expiry_witness :
    (saveAnswer 2000000 c4Db "q1" (.num 1) 0).1 =
      Except.error (ApiError.badRequest "Time expired. Exam has been auto-submitted.") ∧
    (saveAnswer 2000000 c4Db "q1" (.num 1) 0).2.attempt.status = "auto_submitted" :=
  saveAnswer_after_expiry_rejected_and_autosubmitted 2000000 c4Db "q1" (.num 1) 0
    (Or.inl (by rfl)) (by norm_num [c4Db])

/-- Helper: two duplicate-free string lists are equal as finsets exactly
when they have equal length and the first is pointwise contained in the
second. -/
theorem length_all_mem_iff_toFinset_eq (xs ids : List String)
    (hx : xs.Nodup) (hi : ids.Nodup) :
    (xs.length = ids.length ∧ ∀ s ∈ xs, s ∈ ids) ↔ xs.toFinset = ids.toFinset := by
  constructor
  · rintro ⟨hlen, hmem⟩
    have hsub : xs.toFinset ⊆ ids.toFinset := by
      intro s hs
      rw [List.mem_toFinset] at hs ⊢
      exact hmem s hs
    refine Finset.eq_of_subset_of_card_le hsub ?_
    rw [List.toFinset_card_of_nodup hx, List.toFinset_card_of_nodup hi, hlen]
  · intro heq
    refine ⟨?_, ?_⟩
    · rw [← List.toFinset_card_of_nodup hx, ← List.toFinset_card_of_nodup hi, heq]
    · intro s hs
      rw [← List.mem_toFinset, heq, List.mem_toFinset] at hs
      exact hs

/-- Helper: on a non-null element, the multi-select membership step is a
plain lookup of the stringified element. -/
theorem selectedIdMatches_eq_contains (ids : List String) (x : AnswerValue)
    (hx : x.isNull = false) : selectedIdMatches ids x = ids.contains (jsToStr x) := by
  cases x <;> simp_all [selectedIdMatches, AnswerValue.isNull]

/-- The multi-select question of the claim C5 counterexample: two options,
both flagged correct. -/
def c5Question : Question :=
  ⟨"q5", "multiple_select", [⟨"a", "Alpha", true⟩, ⟨"b", "Beta", true⟩], .null, 1, 0⟩

/-- Claim C5 (counterexample): the duplicated selection [a, a] has the same
length as the correct set {a, b} and every element is a correct id, so the
code judges it correct, although as a set it is {a} and differs from {a, b}. -/
theorem checkAnswer_multiselect_duplicates_judged_correct :
    checkAnswer c5Question (.arr [.str "a", .str "a"]) = true ∧
    specMultiSelectCorrect c5Question (.arr [.str "a", .str "a"]) = false := by
  constructor
  · simp [checkAnswer, c5Question, correctOptionIds, selectedIdMatches, jsToStr,
      List.find?]
  · simp only [specMultiSelectCorrect, List.map, jsToStr, decide_eq_false_iff_not]
    intro heq
    have hb : "b" ∈ (correctOptionIds c5Question).toFinset := by
      simp [correctOptionIds, c5Question]
    rw [← heq] at hb
    simp at hb

/-- Claim C5 (amended): for a multi-select question with options, the
selection is judged correct iff it is an array of the same length as the
list of correct option ids each of whose elements stringifies into that
list; when the selection has no duplicate strings and no nulls (and option
ids are distinct) this coincides with exact set equality, but a duplicated
selection can be judged correct without being set-equal. -/
theorem checkAnswer_multiselect_iff_set_equality (question : Question) (xs : List AnswerValue)
    (htype : question.questionType = "multiple" ∨ question.questionType = "multiple_select")
    (hnonempty : question.options ≠ [])
    (hnull : ∀ x ∈ xs, x.isNull = false)
    (hnodup : (xs.map jsToStr).Nodup)
    (hids : (correctOptionIds question).Nodup) :
    checkAnswer question (.arr xs) = true ↔
      (xs.map jsToStr).toFinset = (correctOptionIds question).toFinset := by
  have hlen : question.options.length > 0 := List.length_pos.mpr hnonempty
  have hbranch : checkAnswer question (.arr xs) =
      (decide (xs.length = (correctOptionIds question).length) &&
        xs.all (selectedIdMatches (correctOptionIds question))) := by
    rcases htype with h | h <;> simp [checkAnswer, h, if_pos hlen]
  rw [hbranch]
  have hmatch : ∀ x ∈ xs, selectedIdMatches (correctOptionIds question) x =
      (correctOptionIds question).contains (jsToStr x) :=
    fun x hx => selectedIdMatches_eq_contains _ x (hnull x hx)
  rw [← length_all_mem_iff_toFinset_eq _ _ hnodup hids]
  simp only [Bool.and_eq_true, decide_eq_true_eq, List.all_eq_true, List.length_map]
  constructor
  · rintro ⟨hl, hall⟩
    refine ⟨hl, ?_⟩
    intro s hs
    rw [List.mem_map] at hs
    obtain ⟨x, hxmem, rfl⟩ := hs
    have := hall x hxmem
    rw [hmatch x hxmem] at this
    simpa using this
  · rintro ⟨hl, hall⟩
    refine ⟨hl, ?_⟩
    intro x hxmem
    rw [hmatch x hxmem]
    simpa using hall (jsToStr x) (List.mem_map_of_mem jsToStr hxmem)

/-- The multi-select question of the claim C5 witness: one correct option
out of two. -/
def c5wQuestion : Question :=
  ⟨"q5w", "multiple_select", [⟨"a", "Alpha", true⟩, ⟨"b", "Beta", false⟩], .null, 1, 0⟩

/-- Claim C5 (witness): the amended equivalence evaluated on a concrete
duplicate-free selection. -/
theorem checkAnswer_multiselect_iff_set_equality_witness :
    checkAnswer c5wQuestion (.arr [.str "a"]) = true ↔
      (([AnswerValue.str "a"]).map jsToStr).toFinset =
        (correctOptionIds c5wQuestion).toFinset :=
  checkAnswer_multiselect_iff_set_equality c5wQuestion [.str "a"]
    (Or.inr rfl) (by simp [c5wQuestion])
    (by intro x hx; simp at hx; rw [hx]; rfl)
    (by simp [jsToStr]) (by simp [correctOptionIds, c5wQuestion])

/-- The caller of the claim C6 theorems: an admin, for whom the educator
institution guard does not apply. -/
def c6User : UserRec := ⟨"admin6", "admin", none⟩

/-- The active exam of the claim C6 counterexample, with an empty question
set and a one-question bank. -/
def c6Db : ExamServiceDb :=
  ⟨some ⟨"e6", "creator6", none, "active", 0, "all", [], [], []⟩, [], [⟨"q1", 5⟩]⟩

/-- Claim C6 (counterexample): adding a question to an exam whose status is
active succeeds — the question-set edit has no status guard — contradicting
the claim that every edit operation fails with BadRequest on an active
exam. -/
theorem addQuestions_to_active_exam_succeeds :
    (addQuestionsToExam c6Db ["q1"] c6User).1 =
      Except.ok ⟨"e6", "creator6", none, "active", 5, "all", [], [], []⟩ ∧
    (addQuestionsToExam c6Db ["q1"] c6User).2.examQuestions = ["q1"] := by
  constructor <;>
    simp [addQuestionsToExam, c6Db, c6User, educatorInstitutionDenied,
      recomputeTotalMarks, examQuestionMarks, List.find?, List.foldl]

/-- Claim C6 (amended): for an exam with status active or completed,
updateExam and deleteExam fail with BadRequest and leave the rows
unchanged (for a caller passing the institution guard); the question-set
edits addQuestionsToExam and removeQuestionsFromExam perform no status
check and can succeed on such exams. -/
theorem updateExam_deleteExam_rejected_on_active_or_completed (db : ExamServiceDb)
    (user : UserRec) (updateData : ExamRecord → ExamRecord) (exam : ExamRecord)
    (hexam : db.exam = some exam)
    (hstatus : exam.status = "active" ∨ exam.status = "completed")
    (hauth : educatorInstitutionDenied exam user = false) :
    updateExam db user updateData =
      (Except.error (ApiError.badRequest "Cannot update an active or completed exam"), db) ∧
    deleteExam db user =
      (Except.error (ApiError.badRequest "Cannot delete an active or completed exam"), db) := by
  constructor <;>
    simp only [updateExam, deleteExam, hexam, hauth, Bool.false_eq_true,
      if_false, if_pos hstatus]

/-- The completed exam of the claim C6 witness. -/
def c6wDb : ExamServiceDb :=
  ⟨some ⟨"e6w", "creator6", none, "completed", 10, "all", [], [], []⟩, ["q1"], [⟨"q1", 10⟩]⟩

/-- Claim C6 (witness): the rejection of updateExam and deleteExam
evaluated on a concrete completed exam. -/
theorem updateExam_deleteExam_rejected_witness :
    updateExam c6wDb c6User id =
      (Except.error (ApiError.badRequest "Cannot update an active or completed exam"), c6wDb) ∧
    deleteExam c6wDb c6User =
      (Except.error (ApiError.badRequest "Cannot delete an active or completed exam"), c6wDb) :=
  updateExam_deleteExam_rejected_on_active_or_completed c6wDb c6User id
    ⟨"e6w", "creator6", none, "completed", 10, "all", [], [], []⟩
    rfl (Or.inr rfl) rfl

/-- The caller of the claim C7 theorems: an admin. -/
def c7User : UserRec := ⟨"admin7", "admin", none⟩

/-- The completed exam of the claim C7 counterexample, carrying one
question. -/
def c7Db : ExamServiceDb :=
  ⟨some ⟨"e7", "creator7", none, "completed", 5, "all", [], [], []⟩, ["q1"], [⟨"q1", 5⟩]⟩

/-- Claim C7 (counterexample): publishing an exam whose status is completed
(not draft) succeeds and rewrites the status to published — there is no
draft-only transition guard. -/
theorem publishExam_succeeds_from_completed :
    (publishExam c7Db c7User).1 =
      Except.ok ⟨"e7", "creator7", none, "published", 5, "all", [], [], []⟩ ∧
    (publishExam c7Db c7User).2.exam =
      some ⟨"e7", "creator7", none, "published", 5, "all", [], [], []⟩ := by
  constructor <;> simp [publishExam, c7Db, c7User, educatorInstitutionDenied]

/-- Claim C7 (amended): publishExam (for a caller passing the institution
guard) fails with BadRequest "Cannot publish exam without questions" and
leaves the rows unchanged when the exam has zero questions, and otherwise
succeeds and sets the status to published regardless of the current
status — the draft-only restriction of the claim is not checked. -/
theorem publishExam_guards_only_questions (db : ExamServiceDb) (user : UserRec)
    (exam : ExamRecord) (hexam : db.exam = some exam)
    (hauth : educatorInstitutionDenied exam user = false) :
    (db.examQuestions.length = 0 →
      publishExam db user =
        (Except.error (ApiError.badRequest "Cannot publish exam without questions"), db)) ∧
    (db.examQuestions.length ≠ 0 →
      publishExam db user =
        (Except.ok { exam with status := "published" },
         { db with exam := some { exam with status := "published" } })) := by
  constructor
  · intro hzero
    simp only [publishExam, hexam, hauth, Bool.false_eq_true, if_false, if_pos hzero]
  · intro hpos
    simp only [publishExam, hexam, hauth, Bool.false_eq_true, if_false, if_neg hpos]

/-- Claim C7 (witness): the amended statement evaluated on the concrete
completed exam with one question. -/
theorem publishExam_guards_only_questions_witness :
    (c7Db.examQuestions.length = 0 →
      publishExam c7Db c7User =
        (Except.error (ApiError.badRequest "Cannot publish exam without questions"), c7Db)) ∧
    (c7Db.examQuestions.length ≠ 0 →
      publishExam c7Db c7User =
        (Except.ok { (⟨"e7", "creator7", none, "completed", 5, "all", [], [], []⟩ : ExamRecord)
            with status := "published" },
         { c7Db with exam := some { (⟨"e7", "creator7", none, "completed", 5, "all", [], [], []⟩ :
            ExamRecord) with status := "published" } })) :=
  publishExam_guards_only_questions c7Db c7User
    ⟨"e7", "creator7", none, "completed", 5, "all", [], [], []⟩ rfl rfl

/-- The published exam of the claim C8 theorems: section-assigned to s1
only. -/
def c8Exam : ExamRecord :=
  ⟨"e8", "creator8", none, "published", 10, "section", ["s1"], [], []⟩

/-- The student of the claim C8 theorems: in section s2, no department. -/
def c8Student : StudentRec := ⟨some "s2", none, none⟩

/-- Claim C8 (counterexample): a student to whom the exam is not assigned
receives Forbidden (403) "This exam is not assigned to you", not the
NotFound (404) used for an absent exam — the existence of the exam is
leaked. -/
theorem getExamById_unassigned_forbidden_not_notFound :
    getExamByIdStudent (some c8Exam) (some c8Student) "stu8" =
      Except.error (ApiError.forbidden "This exam is not assigned to you") ∧
    (ApiError.forbidden "This exam is not assigned to you").statusCode ≠
      (ApiError.notFound "Exam not found").statusCode := by
  constructor
  · simp [getExamByIdStudent, c8Exam, c8Student, examIsAssigned]
  · decide

/-- Claim C8 (amended): for every visible exam (status published, active or
completed) and every student failing the assignment match, getExamById
fails with Forbidden "This exam is not assigned to you"; NotFound is used
for the absent exam, unavailable status and institution-scope cases, but
not for the assignment mismatch. -/
theorem getExamById_unassigned_student_forbidden (exam : ExamRecord)
    (student : StudentRec) (userId : String)
    (hstatus : exam.status = "published" ∨ exam.status = "active" ∨ exam.status = "completed")
    (hassigned : examIsAssigned exam student userId = false) :
    getExamByIdStudent (some exam) (some student) userId =
      Except.error (ApiError.forbidden "This exam is not assigned to you") := by
  have h1 : ¬ ¬ (exam.status = "published" ∨ exam.status = "active" ∨
      exam.status = "completed") := not_not_intro hstatus
  have h2 : ¬ (examIsAssigned exam student userId = true) := by simp [hassigned]
  simp only [getExamByIdStudent, if_neg h1, if_pos h2]

/-- Claim C8 (witness): the Forbidden rejection evaluated on the concrete
unassigned student. -/
theorem getExamById_unassigned_student_forbidden_witness :
    getExamByIdStudent (some c8Exam) (some c8Student) "stu8" =
      Except.error (ApiError.forbidden "This exam is not assigned to you") :=
  getExamById_unassigned_student_forbidden c8Exam c8Student "stu8"
    (Or.inl rfl) (by rfl)

/-- The shuffling exam of the claim C9 counterexample. -/
def c9Exam : Exam := ⟨"e9", "active", 30, 10, 40, false, 0, true⟩

/-- First question of the claim C9 counterexample. -/
def c9Q1 : Question := ⟨"q1", "numerical", [], .num 1, 5, 0⟩

/-- Second question of the claim C9 counterexample. -/
def c9Q2 : Question := ⟨"q2", "numerical", [], .num 2, 5, 0⟩

/-- Claim C9 (counterexample): with shuffling on and a draw that reverses
the two questions, startAttempt presents them as [q2, q1] while a later
resumeAttempt presents the stored order [q1, q2] — the per-attempt
permutation is not preserved across the attempt lifetime. -/
theorem shuffled_start_order_differs_from_resume_order :
    (startAttemptQuestionOrder c9Exam [c9Q1, c9Q2] List.reverse).map Question.id
      = ["q2", "q1"] ∧
    (resumeAttemptQuestionOrder [c9Q1, c9Q2]).map Question.id = ["q1", "q2"] ∧
    (["q2", "q1"] : List String) ≠ ["q1", "q2"] := by
  refine ⟨?_, ?_, by decide⟩ <;>
    simp [startAttemptQuestionOrder, resumeAttemptQuestionOrder, c9Exam, c9Q1, c9Q2]

/-- Claim C9 (amended): the shuffled presentation order is computed only
inside startAttempt and never persisted; resumeAttempt always returns the
stored exam question order, so the two presentations agree exactly when
shuffling is off or the random draw happened to leave the order
unchanged. -/
theorem resume_returns_stored_order (exam : Exam) (questions : List Question)
    (shuffleDraw : List Question → List Question) :
    resumeAttemptQuestionOrder questions = questions ∧
    (startAttemptQuestionOrder exam questions shuffleDraw
        = resumeAttemptQuestionOrder questions ↔
      exam.shuffleQuestions = false ∨ shuffleDraw questions = questions) := by
  refine ⟨rfl, ?_⟩
  by_cases h : exam.shuffleQuestions <;>
    simp [startAttemptQuestionOrder, resumeAttemptQuestionOrder, h]

/-- Claim C10: grading is total in the percentage division — when the exam
totalMarks is 0, finalize completes and stores percentage 0 thanks to the
zero-total guard of calculatePercentage. -/
theorem finalize_zero_totalMarks_percentage_zero (now : Int) (db : AttemptDb)
    (submitType : String)
    (hzero : db.exam.totalMarks = 0)
    (hstatus : db.attempt.status = "started" ∨ db.attempt.status = "in_progress") :
    (finalizeAttempt now db submitType).1.map FinalizeResult.percentage = Except.ok 0 := by
  simp only [finalizeAttempt, if_pos hstatus, Except.map]
  simp [calculatePercentage, hzero]

/-- The zero-totalMarks attempt of the claim C10 witness. -/
def c10Db : AttemptDb :=
  ⟨⟨"exam10", "active", 30, 0, 40, false, 0, false⟩,
   [⟨"q1", "numerical", [], .num 7, 5, 0⟩],
   ⟨"att10", "exam10", "stu10", "started", 0, none, 0, none, 0, 0, 0, 0, none, none⟩,
   [⟨"q1", .num 7, true, none, 0, 0, none⟩]⟩

/-- Claim C10 (witness): the zero-division guard evaluated on a concrete
attempt against an exam with totalMarks 0. -/
theorem finalize_zero_totalMarks_percentage_zero_witness :
    (finalizeAttempt 1000 c10Db "submitted").1.map FinalizeResult.percentage =
      Except.ok 0 :=
  finalize_zero_totalMarks_percentage_zero 1000 c10Db "submitted" rfl (Or.inl rfl)
